import Mathlib

/-!
Verification development for the `backendPrados` conversational backend
(`server.py`).  The Python source is shallowly embedded: every handler and
helper becomes a pure Lean function over explicit state (the SQLite
`conversations` table becomes a list of rows in insertion order) and explicit
outcomes for the external collaborators (speech-to-text, language model,
text-to-speech, agent-metadata lookup, database availability).

Conventions of the embedding:
* SQLite rows carry server-assigned `created_at` timestamps that increase with
  insertion order; the store is a `List Row` in insertion (= creation) order,
  so `ORDER BY created_at ASC` is list order and `ORDER BY created_at DESC
  LIMIT n` selects the last `n` rows of a session.
* A `DbOutcome` parameter stands for the availability of the SQLite store
  during one request; `.fail` makes every store operation raise, mirroring the
  `except` blocks of the Python helpers.
* Provider calls are oracles `Except String α`: `.ok` is a normal return,
  `.error m` is a raised exception whose `str(e)` is `m`.
* FastAPI `HTTPException(status_code, detail)` becomes `HTTPError`; a Python
  `except HTTPException: raise` block is modelled by propagating the
  `HTTPError`, and a blanket `except Exception` by matching on `PyExn`.
* Python string truthiness (`if not s`) is `s == ""`, `str.strip()` is
  `pyStrip`, `str.lower()` is `lowerStr`, and `in` on strings is `strContains`.
-/

namespace Prados

/-- Roles of chat messages as stored and sent to the model. -/
inductive Role where
  | system
  | user
  | assistant
deriving DecidableEq, Repr

/-- One role-tagged message (what `get_conversation_history` returns and what
`get_ai_response` sends to the model). -/
structure Msg where
  role : Role
  content : String
deriving DecidableEq, Repr

/-- One row of the SQLite `conversations` table.  The autoincrement `id` and
the `created_at` timestamp are represented by the position of the row in the
store list (rows are only ever appended, so list order = creation order). -/
structure Row where
  session_id : String
  role : Role
  content : String
deriving DecidableEq, Repr

/-- The `conversations` table, in insertion (creation) order. -/
abbrev Store := List Row

/-- Availability of the SQLite store during one request (`.fail` makes the
raw operations raise, exercising the `except` branches of the helpers). -/
inductive DbOutcome where
  | ok
  | fail
deriving DecidableEq, Repr

/-- Constant `MAX_HISTORY_MESSAGES = 20` (server.py:89). -/
def MAX_HISTORY_MESSAGES : Nat := 20

/-- Rows of one session, in creation order
(`WHERE session_id = ? ORDER BY created_at ASC`). -/
def sessionRows (sid : String) (s : Store) : List Row :=
  s.filter (fun r => r.session_id == sid)

/-- Drop the first `k` rows belonging to session `sid`, keeping everything
else in order.  This is the `DELETE` of `add_to_history` (server.py:141-150):
it removes exactly the oldest `k` rows of the session, where the kept rows are
the `ORDER BY created_at DESC LIMIT 20` ones. -/
def dropFirstSession (sid : String) (k : Nat) (s : Store) : Store :=
  match k, s with
  | 0, s => s
  | _ + 1, [] => []
  | k + 1, r :: rs =>
    if r.session_id == sid then dropFirstSession sid k rs
    else r :: dropFirstSession sid (k + 1) rs

/-- Prune a session to the newest `MAX_HISTORY_MESSAGES` rows
(the `DELETE ... NOT IN (SELECT id ... ORDER BY created_at DESC LIMIT ?)`
statement of `add_to_history`). -/
def pruneSession (sid : String) (s : Store) : Store :=
  dropFirstSession sid ((sessionRows sid s).length - MAX_HISTORY_MESSAGES) s

/-- Raw body of `add_to_history` (server.py:127-151): insert the user row,
insert the assistant row, commit, then prune.  Raises when the store is
unavailable. -/
def rawAppendPair (db : DbOutcome) (s : Store) (sid userMessage aiResponse : String) :
    Except String Store :=
  match db with
  | .ok => .ok (pruneSession sid
      (s ++ [⟨sid, .user, userMessage⟩, ⟨sid, .assistant, aiResponse⟩]))
  | .fail => .error "db failure"

/-- Helper `add_to_history` (server.py:124-156).  The surrounding
`try/except` logs and swallows every error ("No lanzar error para no
interrumpir la respuesta al usuario"), so the helper always returns a store
and a failure is a no-op.  The total return type (`Store`, not `Except`)
is the never-raises contract. -/
def add_to_history (db : DbOutcome) (s : Store) (sid userMessage aiResponse : String) : Store :=
  match rawAppendPair db s sid userMessage aiResponse with
  | .ok s2 => s2
  | .error _ => s

/-- Projection of a stored row to the `{"role": ..., "content": ...}` dict
built by `get_conversation_history`. -/
def rowMsg (r : Row) : Msg := ⟨r.role, r.content⟩

/-- Raw body of `get_conversation_history` (server.py:161-173):
`SELECT role, content ... ORDER BY created_at ASC LIMIT 20`. -/
def rawRead (db : DbOutcome) (s : Store) (sid : String) : Except String (List Msg) :=
  match db with
  | .ok => .ok (((sessionRows sid s).take MAX_HISTORY_MESSAGES).map rowMsg)
  | .fail => .error "db failure"

/-- Helper `get_conversation_history` (server.py:158-176).  The `except`
block logs and returns `[]`, so the read never raises; an unknown session
yields the empty list from the `SELECT` itself. -/
def get_conversation_history (db : DbOutcome) (s : Store) (sid : String) : List Msg :=
  match rawRead db s sid with
  | .ok h => h
  | .error _ => []

/-- Raw body of `clear_conversation` (server.py:181-184):
`DELETE FROM conversations WHERE session_id = ?`. -/
def rawClear (db : DbOutcome) (s : Store) (sid : String) : Except String Store :=
  match db with
  | .ok => .ok (s.filter (fun r => !(r.session_id == sid)))
  | .fail => .error "db failure"

/-- Helper `clear_conversation` (server.py:178-187).  Unlike the other two
helpers its `except` block logs and then re-`raise`s, so failure propagates
to the caller. -/
def clear_conversation (db : DbOutcome) (s : Store) (sid : String) : Except String Store :=
  match rawClear db s sid with
  | .ok s2 => .ok s2
  | .error e => .error e

/-- Helper `get_or_create_session` (server.py:117-122).  `fresh` stands for
the `str(uuid.uuid4())` value minted on this call (a 36-character string,
hence never empty); `if not session_id` is true for both `None` and `""`. -/
def get_or_create_session (candidate : Option String) (fresh : String) : String :=
  match candidate with
  | none => fresh
  | some s => if s == "" then fresh else s

/-- Python `str.strip()` (whitespace from both ends). -/
def pyStrip (s : String) : String :=
  String.mk (((s.data.dropWhile Char.isWhitespace).reverse.dropWhile Char.isWhitespace).reverse)

/-- Python `str.lower()`. -/
def lowerStr (s : String) : String := String.mk (s.data.map Char.toLower)

/-- Does `hay` start with `needle`? (auxiliary for substring search). -/
def listStartsWith : List Char → List Char → Bool
  | _, [] => true
  | [], _ :: _ => false
  | a :: as, b :: bs => a == b && listStartsWith as bs

/-- Does `hay` contain `needle` as a contiguous run? -/
def listHasInfix : List Char → List Char → Bool
  | [], needle => listStartsWith [] needle
  | a :: t, needle => listStartsWith (a :: t) needle || listHasInfix t needle

/-- Python `needle in hay` on strings. -/
def strContains (hay needle : String) : Bool := listHasInfix hay.data needle.data

/-- The empty / whitespace-only transcript test used by both voice endpoints:
`if not transcribed_text or len(transcribed_text.strip()) == 0`. -/
def isEmptyTranscript (t : String) : Bool := t == "" || pyStrip t == ""

/-- A FastAPI `HTTPException(status_code=..., detail=...)`. -/
structure HTTPError where
  status : Nat
  detail : String
deriving DecidableEq, Repr

/-- Python `str(e)` of a `starlette.HTTPException` is
`f"\x7bstatus_code\x7d: \x7bdetail\x7d"`. -/
def httpErrStr (e : HTTPError) : String := toString e.status ++ ": " ++ e.detail

/-- An exception inside a handler body: either an `HTTPException` or any
other exception carrying its `str(e)`. -/
inductive PyExn where
  | http (e : HTTPError)
  | plain (msg : String)
deriving DecidableEq, Repr

/-- Python `str(e)` for a `PyExn`. -/
def pyExnStr : PyExn → String
  | .http e => httpErrStr e
  | .plain m => m

/-- Which external providers a request actually reached (used to check
"the provider is never called" properties). -/
structure CallLog where
  stt : Bool
  llm : Bool
  tts : Bool
deriving DecidableEq, Repr

/-- System-prompt template of `/voice-chat` and `/text-chat`
(server.py:500-506 and 577-583, identical), part before the interpolated
`LEGAL_INFO` corpus. -/
def legalPromptBefore : String :=
  "Eres un asistente legal experto en Prados de Paraíso. Responde preguntas sobre condiciones legales, propiedad, posesión y saneamiento.\n\nInformación legal disponible:\n"

/-- System-prompt template of `/voice-chat` and `/text-chat`, part after the
interpolated `LEGAL_INFO` corpus. -/
def legalPromptAfter : String :=
  "\n\nIMPORTANTE: Responde de forma amigable, profesional y desarrollada. Explica los conceptos de manera clara y completa, como si estuvieras conversando con un cliente. Sé empático y comprensivo. Desarrolla tus respuestas de forma concisa pero completa (4-6 frases), usando ejemplos cuando sea útil. Mantén la información precisa y basada en la información legal disponible. Si no tienes la información específica, indica amablemente que el usuario debe consultar con el equipo legal.\nRecuerda el contexto de la conversación anterior para dar respuestas coherentes y naturales."

/-- The f-string of server.py:500-506 / 577-583: persona instructions with
the knowledge corpus interpolated verbatim.  The corpus itself (`LEGAL_INFO`,
server.py:190-352) is an externally owned text blob and is therefore a
parameter of the embedding. -/
def mkLegalSystemPrompt (info : String) : String :=
  legalPromptBefore ++ info ++ legalPromptAfter

/-- Agent-persona template of `/voice-agent` (server.py:717-723), part
between the interpolated `agent_name` and the corpus. -/
def agentPromptMid : String :=
  ", un asistente legal experto especializado en Prados de Paraíso. Responde preguntas sobre condiciones legales, propiedad, posesión y saneamiento.\n\nInformación legal disponible:\n"

/-- Agent-persona template of `/voice-agent`, part after the corpus. -/
def agentPromptAfter : String :=
  "\n\nIMPORTANTE: Responde de forma amigable, cálida y desarrollada como lo haría el Dr. Prados. Sé conversacional y empático. Explica los conceptos de manera clara y completa de forma concisa pero desarrollada (4-6 frases). Usa un tono cercano y profesional, como si estuvieras hablando con un amigo o colega. Desarrolla tus respuestas con suficiente detalle para que sean útiles y comprensibles, pero de forma eficiente.\nRecuerda el contexto de la conversación anterior para dar respuestas coherentes y naturales."

/-- The f-string of server.py:717-723. -/
def mkAgentSystemPrompt (name info : String) : String :=
  "Eres " ++ name ++ agentPromptMid ++ info ++ agentPromptAfter

/-- The `conversation_history` argument of `get_ai_response` as a Python
value: the awaited list, `None`, or — when the caller forgot the `await`
(server.py:496) — the un-awaited coroutine object returned by
`get_conversation_history(session_id)`. -/
inductive HistArg where
  | none
  | lst (h : List Msg)
  | coro
deriving DecidableEq, Repr

/-- Python truthiness of the `conversation_history` argument
(`if conversation_history:`): `None` and `[]` are falsy; a coroutine object
is always truthy. -/
def histTruthy : HistArg → Bool
  | .none => false
  | .lst h => !h.isEmpty
  | .coro => true

/-- Python `messages.extend(conversation_history)`: extending by a list
yields its elements; extending by a coroutine raises
`TypeError: \x27coroutine\x27 object is not iterable`. -/
def extendHist : HistArg → Except String (List Msg)
  | .lst h => .ok h
  | .none => .ok []
  | .coro => .error "\x27coroutine\x27 object is not iterable"

/-- Message-list construction of `get_ai_response` (server.py:361-370):
`[system]`, extended by the history when truthy, then the current user
message.  Raises (inside the `try`) iff the extend step raises. -/
def buildMessages (systemPrompt : String) (hist : HistArg) (userMessage : String) :
    Except String (List Msg) :=
  if histTruthy hist then
    match extendHist hist with
    | .ok h => .ok (⟨.system, systemPrompt⟩ :: (h ++ [⟨.user, userMessage⟩]))
    | .error e => .error e
  else .ok (⟨.system, systemPrompt⟩ :: [⟨.user, userMessage⟩])

/-- Helper `get_ai_response` (server.py:355-382).  `openaiClient` is the
truthiness of the global `openai_client`; `llm` is the outcome of
`openai_client.chat.completions.create`.  Returns the result together with
whether the language-model provider was actually called.  The 503 check runs
before the `try`; everything raised inside the `try` is wrapped into
`HTTPException(500, "Error generating AI response: " + str(e))`. -/
def get_ai_response (openaiClient : Bool) (llm : Except String String)
    (systemPrompt userMessage : String) (hist : HistArg) :
    Except HTTPError String × Bool :=
  if !openaiClient then (.error ⟨503, "OpenAI not configured"⟩, false)
  else
    match buildMessages systemPrompt hist userMessage with
    | .error e => (.error ⟨500, "Error generating AI response: " ++ e⟩, false)
    | .ok _messages =>
      match llm with
      | .ok t => (.ok t, true)
      | .error e => (.error ⟨500, "Error generating AI response: " ++ e⟩, true)

/-- Response body of a successful `POST /api/tts` (server.py:450-453). -/
structure TtsOk where
  audio : String
  format : String
deriving DecidableEq, Repr

/-- Body of the `try` in `text_to_speech` (server.py:420-453): 503 when the
speech client is missing, 400 when `text` is empty, otherwise the provider
call; the boolean records whether the provider was called. -/
def ttsInner (elevenClient : Bool) (text : String) (tts : Except String String) :
    Except PyExn TtsOk × Bool :=
  if !elevenClient then (.error (.http ⟨503, "ElevenLabs not configured"⟩), false)
  else if text == "" then (.error (.http ⟨400, "Text is required"⟩), false)
  else
    match tts with
    | .ok b => (.ok ⟨b, "mp3"⟩, true)
    | .error m => (.error (.plain m), true)

/-- Endpoint `POST /api/tts` (server.py:417-457).  Its `try` has only a
blanket `except Exception as e: raise HTTPException(500, str(e))` — there is
no `except HTTPException: raise` guard, so even the `HTTPException`s raised
by its own validation are converted to status 500. -/
def text_to_speech (elevenClient : Bool) (text : String) (tts : Except String String) :
    Except HTTPError TtsOk × Bool :=
  match ttsInner elevenClient text tts with
  | (.ok r, c) => (.ok r, c)
  | (.error e, c) => (.error ⟨500, pyExnStr e⟩, c)

/-- Response body of a successful `POST /api/voice-chat` (server.py:537-543). -/
structure VoiceChatOk where
  session_id : String
  transcribed_text : String
  ai_response : String
  audio_url : String
  format : String
deriving DecidableEq, Repr

/-- Endpoint `POST /api/voice-chat` (server.py:460-549).
Parameters: configuration truthiness (`elevenlabs_client`, `OPENAI_API_KEY`,
`openai_client`), the optional `session_id` form field, the freshly minted
UUID, the corpus text, `len(audio_content)`, and the outcomes of the three
provider calls and of the store.  Note two properties of the source mirrored
here: the audio length is never checked (unlike `voice_agent`), and the
history is fetched without `await` (server.py:496), so `get_ai_response`
receives a coroutine object. -/
def voice_chat (elevenClient openaiKey openaiClient : Bool)
    (sessionIn : Option String) (fresh corpus : String) (audioLen : Nat)
    (stt : Except String String) (db : DbOutcome) (store : Store)
    (llm tts : Except String String) :
    Except HTTPError VoiceChatOk × Store × CallLog :=
  if !elevenClient then
    (.error ⟨503, "ElevenLabs not configured"⟩, store, ⟨false, false, false⟩)
  else if !openaiKey then
    (.error ⟨503, "OpenAI not configured"⟩, store, ⟨false, false, false⟩)
  else
    let sid := get_or_create_session sessionIn fresh
    match stt with
    | .error m =>
      -- not an HTTPException: caught by the endpoint-level `except Exception`
      (.error ⟨500, "Error procesando consulta de voz: " ++ m⟩, store, ⟨true, false, false⟩)
    | .ok t =>
      if isEmptyTranscript t then
        (.error ⟨400, "No se pudo transcribir el audio. Intenta hablar más claro."⟩,
         store, ⟨true, false, false⟩)
      else
        -- server.py:496: `history = get_conversation_history(session_id)` — no await,
        -- so the argument below is the coroutine object, not the stored history.
        match get_ai_response openaiClient llm (mkLegalSystemPrompt corpus) t .coro with
        | (.error e, called) => (.error e, store, ⟨true, called, false⟩)
        | (.ok ai, called) =>
          let store2 := add_to_history db store sid t ai
          match tts with
          | .error m =>
            (.error ⟨500, "Error procesando consulta de voz: " ++ m⟩, store2,
             ⟨true, called, true⟩)
          | .ok b =>
            (.ok ⟨sid, t, ai, "data:audio/mpeg;base64," ++ b, "mp3"⟩, store2,
             ⟨true, called, true⟩)

/-- Response body of a successful `POST /api/text-chat` (server.py:621-627). -/
structure TextChatOk where
  session_id : String
  user_text : String
  ai_response : String
  audio_url : Option String
  format : Option String
deriving DecidableEq, Repr

/-- Endpoint `POST /api/text-chat` (server.py:552-636).  Synthesis is
attempted only when `elevenlabs_client` is truthy and its failure is caught
and logged, leaving `audio_url = None`. -/
def text_chat (openaiKey openaiClient elevenClient : Bool)
    (textIn : String) (sessionIn : Option String) (fresh corpus : String)
    (db : DbOutcome) (store : Store) (llm tts : Except String String) :
    Except HTTPError TextChatOk × Store × CallLog :=
  if !openaiKey then
    (.error ⟨503, "OpenAI not configured"⟩, store, ⟨false, false, false⟩)
  else
    let text := pyStrip textIn
    if text == "" then
      (.error ⟨400, "Text is required"⟩, store, ⟨false, false, false⟩)
    else
      let sid := get_or_create_session sessionIn fresh
      let history := get_conversation_history db store sid
      match get_ai_response openaiClient llm (mkLegalSystemPrompt corpus) text (.lst history) with
      | (.error e, called) => (.error e, store, ⟨false, called, false⟩)
      | (.ok ai, called) =>
        let store2 := add_to_history db store sid text ai
        let audioUrl : Option String :=
          if elevenClient then
            match tts with
            | .ok b => some ("data:audio/mpeg;base64," ++ b)
            | .error _ => none
          else none
        (.ok ⟨sid, text, ai, audioUrl, if audioUrl.isSome then some "mp3" else none⟩,
         store2, ⟨false, called, elevenClient⟩)

/-- Default voice and display name of the agent flow (server.py:690-691). -/
def defaultAgentVoice : String := "5kMbtRSEKIkRZSdXxrZg"

/-- Default agent display name (server.py:691). -/
def defaultAgentName : String := "Doctor Prados de Paraiso"

/-- Outcome of the best-effort agent-metadata lookup (server.py:693-711):
any exception / non-200, a 200 body without `conversation_config`, or a 200
body with `conversation_config` whose `tts.voice_id` and `name` may each be
present or absent. -/
inductive AgentLookup where
  | fail
  | okNoConfig
  | okConfig (voiceId : Option String) (name : Option String)
deriving DecidableEq, Repr

/-- Voice resolution of the agent flow: the fetched values override the
defaults only when present; every failure keeps the defaults. -/
def resolveAgentVoice : AgentLookup → String × String
  | .fail => (defaultAgentVoice, defaultAgentName)
  | .okNoConfig => (defaultAgentVoice, defaultAgentName)
  | .okConfig v n => (v.getD defaultAgentVoice, n.getD defaultAgentName)

/-- Error classification of the inner `except Exception` around the
transcription step of `voice_agent` (server.py:679-687), keyed on
`str(e)`. -/
def classifyTranscribeError (m : String) : HTTPError :=
  if strContains (lowerStr m) "audio_too_short" || strContains (lowerStr m) "too short" then
    ⟨400, "El audio es demasiado corto. Por favor, graba al menos 1-2 segundos de audio."⟩
  else if strContains m "400" || strContains m "Bad Request" then
    ⟨400, "Error al procesar el audio: " ++ m⟩
  else
    ⟨500, "Error al transcribir el audio. Intenta nuevamente."⟩

/-- Transcription step of `voice_agent` including its inner `try/except`
(server.py:668-687).  The empty-transcript `HTTPException(400, ...)` raised
inside the `try` is itself caught by the inner `except Exception` and
re-classified from its `str(e)`. -/
def agentTranscribeStep (stt : Except String String) : Except HTTPError String :=
  match stt with
  | .error m => .error (classifyTranscribeError m)
  | .ok t =>
    if isEmptyTranscript t then
      .error (classifyTranscribeError (httpErrStr
        ⟨400, "No se pudo transcribir el audio. Intenta hablar más claro o grabar nuevamente."⟩))
    else .ok t

/-- Response body of a successful `POST /api/voice-agent`
(server.py:751-758). -/
structure VoiceAgentOk where
  session_id : String
  transcribed_text : String
  agent_response : String
  audio_url : String
  format : String
  voice_used : String
deriving DecidableEq, Repr

/-- Endpoint `POST /api/voice-agent` (server.py:639-767).  `agentId` only
feeds the metadata lookup whose outcome is the `lookup` parameter.  This
endpoint, unlike `voice_chat`, rejects audio shorter than 1000 bytes before
calling the transcription provider, and it does `await` its history read. -/
def voice_agent (elevenClient openaiKey openaiClient : Bool) (agentId : String)
    (sessionIn : Option String) (fresh corpus : String) (audioLen : Nat)
    (stt : Except String String) (lookup : AgentLookup)
    (db : DbOutcome) (store : Store) (llm tts : Except String String) :
    Except HTTPError VoiceAgentOk × Store × CallLog :=
  if !elevenClient then
    (.error ⟨503, "ElevenLabs not configured"⟩, store, ⟨false, false, false⟩)
  else if !openaiKey then
    (.error ⟨503, "OpenAI not configured"⟩, store, ⟨false, false, false⟩)
  else
    let sid := get_or_create_session sessionIn fresh
    if audioLen < 1000 then
      (.error ⟨400, "El audio es demasiado corto. Por favor, graba al menos 1 segundo de audio."⟩,
       store, ⟨false, false, false⟩)
    else
      match agentTranscribeStep stt with
      | .error e => (.error e, store, ⟨true, false, false⟩)
      | .ok t =>
        let vn := resolveAgentVoice lookup
        let history := get_conversation_history db store sid
        match get_ai_response openaiClient llm (mkAgentSystemPrompt vn.2 corpus) t
            (.lst history) with
        | (.error e, called) => (.error e, store, ⟨true, called, false⟩)
        | (.ok ai, called) =>
          let store2 := add_to_history db store sid t ai
          match tts with
          | .error m =>
            (.error ⟨500, "Error procesando consulta: " ++ m⟩, store2, ⟨true, called, true⟩)
          | .ok b =>
            (.ok ⟨sid, t, ai, "data:audio/mpeg;base64," ++ b, "mp3", vn.1⟩, store2,
             ⟨true, called, true⟩)

/-- Response body of a successful `POST /api/clear-conversation`
(server.py:783-786). -/
structure ClearOk where
  message : String
  session_id : String
deriving DecidableEq, Repr

/-- Endpoint `POST /api/clear-conversation` (server.py:770-791).  Missing or
empty `session_id` is rejected with 400 before touching the store; a store
failure propagates out of `clear_conversation` and becomes a 500. -/
def clear_conversation_endpoint (db : DbOutcome) (sessionIn : Option String) (store : Store) :
    Except HTTPError ClearOk × Store :=
  match sessionIn with
  | Option.none => (.error ⟨400, "session_id es requerido"⟩, store)
  | Option.some sid =>
    if sid == "" then (.error ⟨400, "session_id es requerido"⟩, store)
    else
      match clear_conversation db store sid with
      | .ok s2 => (.ok ⟨"Conversación limpiada exitosamente", sid⟩, s2)
      | .error e => (.error ⟨500, "Error limpiando conversación: " ++ e⟩, store)

/-- Last `n` elements of a list (what `ORDER BY created_at DESC LIMIT n`
keeps, read back in ascending order). -/
def takeLast (n : Nat) (l : List α) : List α := l.drop (l.length - n)

/-- Messages of one session in creation order. -/
def sessionMsgs (sid : String) (s : Store) : List Msg := (sessionRows sid s).map rowMsg

/-- One `add_to_history` call in a run: its store outcome, target session and
the user/assistant texts of the appended pair. -/
structure AppendOp where
  db : DbOutcome
  session_id : String
  userText : String
  aiText : String
deriving DecidableEq, Repr

/-- Run a sequence of `add_to_history` calls against a store. -/
def applyOps (ops : List AppendOp) (s : Store) : Store :=
  ops.foldl (fun st o => add_to_history o.db st o.session_id o.userText o.aiText) s

/-- The user/assistant message pair appended by one op. -/
def opPair (o : AppendOp) : List Msg := [⟨.user, o.userText⟩, ⟨.assistant, o.aiText⟩]

/-- Full chronological log of everything successfully appended for a session
by a run (no pruning): the reference against which the bounded store is
compared. -/
def appendLog (sid : String) : List AppendOp → List Msg
  | [] => []
  | o :: ops =>
    match o.db with
    | .fail => appendLog sid ops
    | .ok =>
      if o.session_id == sid then opPair o ++ appendLog sid ops
      else appendLog sid ops

/-- A message list that is a concatenation of complete (user, assistant)
pairs: every user turn is immediately followed by its assistant turn. -/
inductive PairedChain : List Msg → Prop where
  | nil : PairedChain []
  | pair (u a : String) {rest : List Msg} :
      PairedChain rest → PairedChain (⟨.user, u⟩ :: ⟨.assistant, a⟩ :: rest)

/-- Decidable equality for `Except` results, so that concrete runs of the
embedded handlers can be checked by `decide`. -/
instance {ε α : Type _} [DecidableEq ε] [DecidableEq α] : DecidableEq (Except ε α) :=
  fun x y =>
    match x, y with
    | .ok a, .ok b =>
      if h : a = b then isTrue (by rw [h]) else isFalse (by intro hh; cases hh; exact h rfl)
    | .error a, .error b =>
      if h : a = b then isTrue (by rw [h]) else isFalse (by intro hh; cases hh; exact h rfl)
    | .ok _, .error _ => isFalse (by intro hh; cases hh)
    | .error _, .ok _ => isFalse (by intro hh; cases hh)

section Lemmas

/-- Helper: `buildMessages` on an actual (awaited) history list never raises
and yields system prompt, history, then the new user message. -/
theorem buildMessages_lst (sp u : String) (h : List Msg) :
    buildMessages sp (.lst h) u = .ok (⟨.system, sp⟩ :: (h ++ [⟨.user, u⟩])) := by
  cases h <;> simp [buildMessages, histTruthy, extendHist]

/-- Helper: `get_ai_response` with a configured client, an awaited history
list and a successful completion returns the completion and did call the
provider. -/
theorem get_ai_response_ok (llmText sp u : String) (h : List Msg) :
    get_ai_response true (.ok llmText) sp u (.lst h) = (.ok llmText, true) := by
  simp [get_ai_response, buildMessages_lst]

/-- Helper: `takeLast n` keeps at most `n` elements. -/
theorem length_takeLast_le (n : Nat) (l : List α) : (takeLast n l).length ≤ n := by
  simp [takeLast]
  omega

/-- Helper: re-taking the last `n` after appending at most `n` elements to a
list already trimmed to its last `n` gives the same result as trimming the
untrimmed list — pruning after each append equals pruning once at the end. -/
theorem takeLast_takeLast_append (n : Nat) (l p : List α) (hp : p.length ≤ n) :
    takeLast n (takeLast n l ++ p) = takeLast n (l ++ p) := by
  rcases le_or_lt l.length n with hl | hl
  · have h0 : l.length - n = 0 := Nat.sub_eq_zero_of_le hl
    simp [takeLast, h0]
  · have hlen : (l.drop (l.length - n)).length = n := by
      rw [List.length_drop]; omega
    unfold takeLast
    rw [List.length_append, List.length_append, hlen]
    rw [List.drop_append_eq_append_drop, List.drop_append_eq_append_drop]
    rw [hlen, List.drop_drop]
    have e1 : l.length - n + (n + p.length - n) = l.length + p.length - n := by omega
    have e2 : n + p.length - n - n = 0 := by omega
    have e3 : l.length + p.length - n - l.length = 0 := by omega
    rw [e1, e2, e3]

/-- Helper: `sessionRows` distributes over store append. -/
theorem sessionRows_append (sid : String) (s t : Store) :
    sessionRows sid (s ++ t) = sessionRows sid s ++ sessionRows sid t := by
  simp [sessionRows]

/-- Helper: `sessionRows` on a cons whose head belongs to the session. -/
theorem sessionRows_cons_pos {sid : String} {r : Row} {rs : List Row}
    (hr : (r.session_id == sid) = true) :
    sessionRows sid (r :: rs) = r :: sessionRows sid rs := by
  simp [sessionRows, List.filter_cons, hr]

/-- Helper: `sessionRows` on a cons whose head belongs to another session. -/
theorem sessionRows_cons_neg {sid : String} {r : Row} {rs : List Row}
    (hr : (r.session_id == sid) = false) :
    sessionRows sid (r :: rs) = sessionRows sid rs := by
  simp [sessionRows, List.filter_cons, hr]

/-- Helper: `dropFirstSession` with budget zero is the identity. -/
theorem dropFirstSession_zero (sid : String) (s : Store) :
    dropFirstSession sid 0 s = s := by
  cases s <;> rfl

/-- Helper: `dropFirstSession` consumes a matching head. -/
theorem dropFirstSession_succ_cons_pos {sid : String} {r : Row} {rs : List Row} {k : Nat}
    (hr : (r.session_id == sid) = true) :
    dropFirstSession sid (k + 1) (r :: rs) = dropFirstSession sid k rs := by
  simp [dropFirstSession, hr]

/-- Helper: `dropFirstSession` skips a non-matching head. -/
theorem dropFirstSession_succ_cons_neg {sid : String} {r : Row} {rs : List Row} {k : Nat}
    (hr : (r.session_id == sid) = false) :
    dropFirstSession sid (k + 1) (r :: rs) = r :: dropFirstSession sid (k + 1) rs := by
  simp [dropFirstSession, hr]

/-- Helper: deleting the first `k` rows of a session removes exactly the
first `k` elements of that session's row list. -/
theorem sessionRows_dropFirstSession (sid : String) :
    ∀ (s : Store) (k : Nat),
      sessionRows sid (dropFirstSession sid k s) = (sessionRows sid s).drop k := by
  intro s
  induction s with
  | nil => intro k; cases k <;> simp [dropFirstSession, sessionRows]
  | cons r rs ih =>
    intro k
    cases k with
    | zero => rw [dropFirstSession_zero]; simp
    | succ k =>
      cases hr : r.session_id == sid with
      | true =>
        rw [dropFirstSession_succ_cons_pos hr, ih k, sessionRows_cons_pos hr,
          List.drop_succ_cons]
      | false =>
        rw [dropFirstSession_succ_cons_neg hr, sessionRows_cons_neg hr, ih (k + 1),
          sessionRows_cons_neg hr]

/-- Helper: deleting rows of another session leaves this session's rows
untouched. -/
theorem sessionRows_dropFirstSession_ne {sid tid : String} (hne : sid ≠ tid) :
    ∀ (s : Store) (k : Nat),
      sessionRows sid (dropFirstSession tid k s) = sessionRows sid s := by
  intro s
  induction s with
  | nil => intro k; cases k <;> simp [dropFirstSession]
  | cons r rs ih =>
    intro k
    cases k with
    | zero => rw [dropFirstSession_zero]
    | succ k =>
      cases hr : r.session_id == tid with
      | true =>
        have hrs : r.session_id = tid := by simpa using hr
        have hno : (r.session_id == sid) = false := by
          rw [hrs]; exact beq_eq_false_iff_ne.mpr (fun hh => hne hh.symm)
        rw [dropFirstSession_succ_cons_pos hr, ih k, sessionRows_cons_neg hno]
      | false =>
        rw [dropFirstSession_succ_cons_neg hr]
        cases hsid : r.session_id == sid with
        | true => rw [sessionRows_cons_pos hsid, sessionRows_cons_pos hsid, ih (k + 1)]
        | false => rw [sessionRows_cons_neg hsid, sessionRows_cons_neg hsid, ih (k + 1)]

/-- Helper: a successful `add_to_history` for a session turns its message
list into the last `MAX_HISTORY_MESSAGES` of (old list ++ new pair). -/
theorem sessionMsgs_add_ok_same (s : Store) (sid u a : String) :
    sessionMsgs sid (add_to_history .ok s sid u a)
      = takeLast MAX_HISTORY_MESSAGES
          (sessionMsgs sid s ++ [⟨.user, u⟩, ⟨.assistant, a⟩]) := by
  have hadd : add_to_history .ok s sid u a
      = pruneSession sid (s ++ [⟨sid, .user, u⟩, ⟨sid, .assistant, a⟩]) := rfl
  rw [hadd]
  unfold pruneSession sessionMsgs takeLast
  rw [sessionRows_dropFirstSession, sessionRows_append]
  have hpair : sessionRows sid [⟨sid, .user, u⟩, ⟨sid, .assistant, a⟩]
      = [⟨sid, .user, u⟩, ⟨sid, .assistant, a⟩] := by simp [sessionRows]
  rw [hpair]
  simp [List.map_drop, rowMsg]

/-- Helper: a failed `add_to_history` is a no-op. -/
theorem add_to_history_fail (s : Store) (sid u a : String) :
    add_to_history .fail s sid u a = s := rfl

/-- Helper: `add_to_history` for another session leaves this session's
messages untouched. -/
theorem sessionMsgs_add_ne {sid tid : String} (hne : sid ≠ tid) (db : DbOutcome)
    (s : Store) (u a : String) :
    sessionMsgs sid (add_to_history db s tid u a) = sessionMsgs sid s := by
  cases db with
  | fail => rfl
  | ok =>
    have hadd : add_to_history .ok s tid u a
        = pruneSession tid (s ++ [⟨tid, .user, u⟩, ⟨tid, .assistant, a⟩]) := rfl
    rw [hadd]
    unfold pruneSession sessionMsgs
    rw [sessionRows_dropFirstSession_ne hne, sessionRows_append]
    have hpair : sessionRows sid [⟨tid, .user, u⟩, ⟨tid, .assistant, a⟩] = [] := by
      have hb : (tid == sid) = false := beq_eq_false_iff_ne.mpr (fun hh => hne hh.symm)
      simp [sessionRows, hb]
    rw [hpair]
    simp

/-- Helper: invariant of a run of `add_to_history` calls — if a session's
stored messages are the last `MAX_HISTORY_MESSAGES` of some log `l`, then
after any further ops they are the last `MAX_HISTORY_MESSAGES` of `l`
extended by everything successfully appended for that session. -/
theorem applyOps_sessionMsgs (sid : String) :
    ∀ (ops : List AppendOp) (s : Store) (l : List Msg),
      sessionMsgs sid s = takeLast MAX_HISTORY_MESSAGES l →
      sessionMsgs sid (applyOps ops s)
        = takeLast MAX_HISTORY_MESSAGES (l ++ appendLog sid ops) := by
  intro ops
  induction ops with
  | nil => intro s l hl; simpa [applyOps, appendLog] using hl
  | cons o ops ih =>
    intro s l hl
    obtain ⟨db, osid, ou, oa⟩ := o
    cases db with
    | fail =>
      show sessionMsgs sid (applyOps ops (add_to_history .fail s osid ou oa)) = _
      rw [add_to_history_fail]
      simpa [appendLog] using ih s l hl
    | ok =>
      by_cases hs : osid = sid
      · subst hs
        have h2 : sessionMsgs osid (add_to_history .ok s osid ou oa)
            = takeLast MAX_HISTORY_MESSAGES (l ++ opPair ⟨.ok, osid, ou, oa⟩) := by
          rw [sessionMsgs_add_ok_same, hl]
          exact takeLast_takeLast_append _ _ _ (by simp [opPair, MAX_HISTORY_MESSAGES])
        have h3 := ih (add_to_history .ok s osid ou oa) (l ++ opPair ⟨.ok, osid, ou, oa⟩) h2
        show sessionMsgs osid (applyOps ops (add_to_history .ok s osid ou oa)) = _
        rw [h3]
        simp [appendLog, opPair, List.append_assoc]
      · have hne : sid ≠ osid := fun hh => hs hh.symm
        have h2 : sessionMsgs sid (add_to_history .ok s osid ou oa)
            = takeLast MAX_HISTORY_MESSAGES l := by
          rw [sessionMsgs_add_ne hne]; exact hl
        have h3 := ih (add_to_history .ok s osid ou oa) l h2
        show sessionMsgs sid (applyOps ops (add_to_history .ok s osid ou oa)) = _
        rw [h3]
        have hb : (osid == sid) = false := beq_eq_false_iff_ne.mpr hs
        simp [appendLog, hb]

/-- Helper: everything successfully appended for a session is a chain of
complete (user, assistant) pairs. -/
theorem pairedChain_appendLog (sid : String) : ∀ ops, PairedChain (appendLog sid ops) := by
  intro ops
  induction ops with
  | nil => exact .nil
  | cons o ops ih =>
    obtain ⟨db, osid, ou, oa⟩ := o
    cases db with
    | fail => simpa [appendLog] using ih
    | ok =>
      by_cases hs : osid = sid
      · subst hs
        have he : appendLog osid (⟨.ok, osid, ou, oa⟩ :: ops)
            = ⟨.user, ou⟩ :: ⟨.assistant, oa⟩ :: appendLog osid ops := by
          simp [appendLog, opPair]
        rw [he]
        exact PairedChain.pair _ _ ih
      · have hb : (osid == sid) = false := beq_eq_false_iff_ne.mpr hs
        simpa [appendLog, hb] using ih

/-- Helper: a paired chain has even length. -/
theorem pairedChain_length_even {l : List Msg} (h : PairedChain l) :
    ∃ k, l.length = 2 * k := by
  induction h with
  | nil => exact ⟨0, rfl⟩
  | pair u a hrest ih =>
    obtain ⟨k, hk⟩ := ih
    exact ⟨k + 1, by simp only [List.length_cons, hk]; omega⟩

/-- Helper: dropping one full pair preserves pairing. -/
theorem pairedChain_drop_two {l : List Msg} (h : PairedChain l) :
    PairedChain (l.drop 2) := by
  cases h with
  | nil => exact .nil
  | pair u a hrest => simpa using hrest

/-- Helper: dropping any even number of elements preserves pairing. -/
theorem pairedChain_drop_even : ∀ (m : Nat) {l : List Msg},
    PairedChain l → PairedChain (l.drop (2 * m)) := by
  intro m
  induction m with
  | zero => intro l h; simpa using h
  | succ m ih =>
    intro l h
    have h3 := ih (pairedChain_drop_two h)
    rw [List.drop_drop] at h3
    have he : 2 * (m + 1) = 2 + 2 * m := by omega
    rw [he]
    exact h3

/-- Helper: trimming a paired chain to its last `MAX_HISTORY_MESSAGES`
elements preserves pairing (both the chain length and the window are even).
-/
theorem pairedChain_takeLast {l : List Msg} (h : PairedChain l) :
    PairedChain (takeLast MAX_HISTORY_MESSAGES l) := by
  obtain ⟨k, hk⟩ := pairedChain_length_even h
  have he : l.length - MAX_HISTORY_MESSAGES = 2 * (k - 10) := by
    simp only [MAX_HISTORY_MESSAGES, hk]; omega
  rw [takeLast, he]
  exact pairedChain_drop_even _ h

/-- Helper: in a paired chain, a user message at index `i` is immediately
followed by an assistant message at index `i + 1`. -/
theorem pairedChain_get? {l : List Msg} (h : PairedChain l) :
    ∀ (i : Nat) (mm : Msg), l.get? i = some mm → mm.role = Role.user →
      ∃ mm2, l.get? (i + 1) = some mm2 ∧ mm2.role = Role.assistant := by
  induction h with
  | nil => intro i mm hget _; simp at hget
  | pair u a hrest ih =>
    intro i mm hget hrole
    match i with
    | 0 => exact ⟨⟨.assistant, a⟩, rfl, rfl⟩
    | 1 =>
      injection hget with hmm
      rw [← hmm] at hrole
      exact absurd hrole (by simp)
    | (k + 2) =>
      obtain ⟨mm2, hg, hr⟩ := ih k mm hget hrole
      exact ⟨mm2, hg, hr⟩

/-- Helper: a successful read returns the session's messages, truncated to
the window (a no-op once the store invariant holds). -/
theorem get_conversation_history_ok (s : Store) (sid : String) :
    get_conversation_history .ok s sid = (sessionMsgs sid s).take MAX_HISTORY_MESSAGES := by
  simp [get_conversation_history, rawRead, sessionMsgs, List.map_take]

end Lemmas

/-- Claim C4: for every session, after any number of `add_to_history` calls
starting from an empty store, the stored turn count is at most
`MAX_HISTORY_MESSAGES` and the retained turns are exactly the most recent
ones of the full chronological append log — pruning only ever removes the
oldest excess rows. -/
theorem history_window_bound (ops : List AppendOp) (sid : String) :
    (sessionRows sid (applyOps ops [])).length ≤ MAX_HISTORY_MESSAGES
  ∧ sessionMsgs sid (applyOps ops [])
      = takeLast MAX_HISTORY_MESSAGES (appendLog sid ops) := by
  have h := applyOps_sessionMsgs sid ops [] [] rfl
  simp only [List.nil_append] at h
  have hrows : (sessionRows sid (applyOps ops [])).length
      = (sessionMsgs sid (applyOps ops [])).length := by
    simp [sessionMsgs]
  exact ⟨by rw [hrows, h]; exact length_takeLast_le _ _, h⟩

/-- Claim C5: for every session, after any sequence of `add_to_history`
calls starting from an empty store, every user turn returned by
`get_conversation_history` is immediately followed by an assistant turn in
read order — a successful append never leaves an orphan user-only
singleton visible to readers. -/
theorem pairing_integrity (ops : List AppendOp) (sid : String) (i : Nat) (mm : Msg)
    (hget : (get_conversation_history .ok (applyOps ops []) sid).get? i = some mm)
    (hrole : mm.role = Role.user) :
    ∃ mm2, (get_conversation_history .ok (applyOps ops []) sid).get? (i + 1) = some mm2
      ∧ mm2.role = Role.assistant := by
  have h := applyOps_sessionMsgs sid ops [] [] rfl
  simp only [List.nil_append] at h
  have hlen : (sessionMsgs sid (applyOps ops [])).length ≤ MAX_HISTORY_MESSAGES := by
    rw [h]; exact length_takeLast_le _ _
  have hread : get_conversation_history .ok (applyOps ops []) sid
      = takeLast MAX_HISTORY_MESSAGES (appendLog sid ops) := by
    rw [get_conversation_history_ok, List.take_of_length_le hlen, h]
  rw [hread] at hget ⊢
  exact pairedChain_get? (pairedChain_takeLast (pairedChain_appendLog sid ops)) i mm hget hrole

/-- Witness for C5: one successful append; the user turn at index 0 is
followed by the assistant turn at index 1. -/
theorem pairing_integrity_witness :
    ∃ mm2, (get_conversation_history .ok
        (applyOps [⟨.ok, "s1", "hola", "respuesta"⟩] []) "s1").get? (0 + 1) = some mm2
      ∧ mm2.role = Role.assistant :=
  pairing_integrity [⟨.ok, "s1", "hola", "respuesta"⟩] "s1" 0 ⟨Role.user, "hola"⟩
    (by decide) (by decide)

/-- Claim C7: in both voice flows, a transcription that succeeds but yields
an empty or whitespace-only transcript is rejected with a 400 client error
and the language model is never called (the `llm` flag of the call log is
`false` and the store is untouched).  In the agent flow the 400 raised for
the empty transcript is re-caught by the inner `except` and re-wrapped by
the `"400" in str(e)` classification branch, so its detail is prefixed with
`"Error al procesar el audio: "`. -/
theorem empty_transcript_rejection
    (sessionIn : Option String) (fresh corpus : String) (audioLen : Nat) (t : String)
    (db : DbOutcome) (store : Store) (llm tts : Except String String)
    (agentId : String) (lookup : AgentLookup)
    (ht : isEmptyTranscript t = true) (hlen : 1000 ≤ audioLen) :
    voice_chat true true true sessionIn fresh corpus audioLen (.ok t) db store llm tts
      = (.error ⟨400, "No se pudo transcribir el audio. Intenta hablar más claro."⟩,
         store, ⟨true, false, false⟩)
  ∧ voice_agent true true true agentId sessionIn fresh corpus audioLen (.ok t) lookup db store
        llm tts
      = (.error ⟨400,
           "Error al procesar el audio: 400: No se pudo transcribir el audio. Intenta hablar más claro o grabar nuevamente."⟩,
         store, ⟨true, false, false⟩) := by
  constructor
  · simp [voice_chat, ht]
  · have hstep : agentTranscribeStep (Except.ok t)
        = Except.error ⟨400,
            "Error al procesar el audio: 400: No se pudo transcribir el audio. Intenta hablar más claro o grabar nuevamente."⟩ := by
      simp only [agentTranscribeStep, ht, if_true]
      decide
    have hnot : ¬ (audioLen < 1000) := Nat.not_lt.mpr hlen
    simp [voice_agent, hnot, hstep]

/-- Witness for C7 at a whitespace-only transcript. -/
theorem empty_transcript_rejection_witness :
    (isEmptyTranscript " " = true ∧ 1000 ≤ 5000)
  ∧ (voice_chat true true true Option.none "u-1" "corpus" 5000 (.ok " ") .ok []
        (Except.ok "r") (Except.ok "b")
      = (.error ⟨400, "No se pudo transcribir el audio. Intenta hablar más claro."⟩,
         [], ⟨true, false, false⟩)
    ∧ voice_agent true true true "agent-1" Option.none "u-1" "corpus" 5000 (.ok " ")
        AgentLookup.fail .ok [] (Except.ok "r") (Except.ok "b")
      = (.error ⟨400,
           "Error al procesar el audio: 400: No se pudo transcribir el audio. Intenta hablar más claro o grabar nuevamente."⟩,
         [], ⟨true, false, false⟩)) :=
  ⟨⟨by decide, by decide⟩,
   empty_transcript_rejection Option.none "u-1" "corpus" 5000 " " .ok []
     (Except.ok "r") (Except.ok "b") "agent-1" AgentLookup.fail (by decide) (by decide)⟩

/-- Claim C8: in the text flow, synthesis is attempted only when the speech
provider is configured (second conjunct: with `elevenlabs_client` absent the
synthesis provider is never called), and a synthesis failure still yields an
HTTP success carrying the completion text with `audio_url = None` and
`format = None` (first conjunct). -/
theorem text_flow_best_effort (textIn : String) (sessionIn : Option String)
    (fresh corpus : String) (db : DbOutcome) (store : Store) (r m : String)
    (tts2 : Except String String) (ht : (pyStrip textIn == "") = false) :
    text_chat true true true textIn sessionIn fresh corpus db store (.ok r) (.error m)
      = (.ok ⟨get_or_create_session sessionIn fresh, pyStrip textIn, r,
              Option.none, Option.none⟩,
         add_to_history db store (get_or_create_session sessionIn fresh) (pyStrip textIn) r,
         ⟨false, true, true⟩)
  ∧ text_chat true true false textIn sessionIn fresh corpus db store (.ok r) tts2
      = (.ok ⟨get_or_create_session sessionIn fresh, pyStrip textIn, r,
              Option.none, Option.none⟩,
         add_to_history db store (get_or_create_session sessionIn fresh) (pyStrip textIn) r,
         ⟨false, true, false⟩) := by
  constructor <;> simp [text_chat, ht, get_ai_response_ok]

/-- Witness for C8 with non-blank input text. -/
theorem text_flow_best_effort_witness :
    ((pyStrip " Hola " == "") = false)
  ∧ (text_chat true true true " Hola " Option.none "u-1" "corpus" .ok []
        (.ok "Respuesta") (.error "tts down")
      = (.ok ⟨get_or_create_session Option.none "u-1", pyStrip " Hola ", "Respuesta",
              Option.none, Option.none⟩,
         add_to_history .ok [] (get_or_create_session Option.none "u-1")
           (pyStrip " Hola ") "Respuesta",
         ⟨false, true, true⟩)
    ∧ text_chat true true false " Hola " Option.none "u-1" "corpus" .ok []
        (.ok "Respuesta") (.error "x")
      = (.ok ⟨get_or_create_session Option.none "u-1", pyStrip " Hola ", "Respuesta",
              Option.none, Option.none⟩,
         add_to_history .ok [] (get_or_create_session Option.none "u-1")
           (pyStrip " Hola ") "Respuesta",
         ⟨false, true, false⟩)) :=
  ⟨by decide,
   text_flow_best_effort " Hola " Option.none "u-1" "corpus" .ok [] "Respuesta" "tts down"
     (.error "x") (by decide)⟩

/-- Claim C9: the composed message list is exactly one system message (the
persona template with the knowledge corpus interpolated verbatim) first,
followed by every history turn in order with its original role, followed by
exactly one final user message with the new user text; no history turn is
dropped regardless of the history length. -/
theorem prompt_composition (info : String) (h : List Msg) (u : String)
    (hroles : ∀ m ∈ h, m.role ≠ Role.system) :
    buildMessages (mkLegalSystemPrompt info) (.lst h) u
      = .ok (⟨.system, mkLegalSystemPrompt info⟩ :: (h ++ [⟨.user, u⟩]))
  ∧ (⟨.system, mkLegalSystemPrompt info⟩ :: (h ++ [⟨.user, u⟩]) : List Msg).head?
      = some ⟨.system, mkLegalSystemPrompt info⟩
  ∧ (⟨.system, mkLegalSystemPrompt info⟩ :: (h ++ [⟨.user, u⟩]) : List Msg).countP
      (fun mm => mm.role == Role.system) = 1
  ∧ (⟨.system, mkLegalSystemPrompt info⟩ :: (h ++ [⟨.user, u⟩]) : List Msg).length
      = h.length + 2
  ∧ (∃ p q, mkLegalSystemPrompt info = p ++ info ++ q)
  ∧ (∀ name, ∃ p q, mkAgentSystemPrompt name info = p ++ info ++ q) := by
  refine ⟨buildMessages_lst _ _ _, rfl, ?_, by simp, ?_, ?_⟩
  · have h0 : h.countP (fun mm => mm.role == Role.system) = 0 :=
      List.countP_eq_zero.mpr (fun mm hm => by simpa using hroles mm hm)
    simp [List.countP_cons, List.countP_append, h0]
  · exact ⟨legalPromptBefore, legalPromptAfter, rfl⟩
  · intro name
    refine ⟨"Eres " ++ name ++ agentPromptMid, agentPromptAfter, ?_⟩
    simp [mkAgentSystemPrompt, String.append_assoc]

/-- Witness for C9 on a two-turn history without system messages. -/
theorem prompt_composition_witness :
    (∀ m ∈ ([⟨Role.user, "q1"⟩, ⟨Role.assistant, "a1"⟩] : List Msg), m.role ≠ Role.system)
  ∧ buildMessages (mkLegalSystemPrompt "CORPUS")
        (.lst [⟨Role.user, "q1"⟩, ⟨Role.assistant, "a1"⟩]) "q2"
      = .ok (⟨Role.system, mkLegalSystemPrompt "CORPUS"⟩ ::
          ([⟨Role.user, "q1"⟩, ⟨Role.assistant, "a1"⟩] ++ [⟨Role.user, "q2"⟩])) :=
  ⟨by decide,
   (prompt_composition "CORPUS" [⟨Role.user, "q1"⟩, ⟨Role.assistant, "a1"⟩] "q2"
     (by decide)).1⟩

/-- Claim C10: `get_or_create_session` treats an empty caller-supplied token
exactly like an absent one (a fresh UUID is returned), returns any non-empty
candidate unchanged, and — since a `str(uuid.uuid4())` is never empty — the
session identifier handed to every flow is always non-empty. -/
theorem session_resolver_spec (c fresh : String) (hc : c ≠ "") (hf : fresh ≠ "") :
    get_or_create_session Option.none fresh = fresh
  ∧ get_or_create_session (Option.some "") fresh = fresh
  ∧ get_or_create_session (Option.some c) fresh = c
  ∧ (∀ cand : Option String, get_or_create_session cand fresh ≠ "") := by
  refine ⟨rfl, by simp [get_or_create_session], ?_, ?_⟩
  · simp [get_or_create_session, beq_eq_false_iff_ne.mpr hc]
  · intro cand
    cases cand with
    | none => simpa [get_or_create_session] using hf
    | some s =>
      by_cases hs : s = ""
      · subst hs; simpa [get_or_create_session] using hf
      · simpa [get_or_create_session, beq_eq_false_iff_ne.mpr hs] using hs

/-- Witness for C10 at concrete inputs. -/
theorem session_resolver_spec_witness :
    ("abc" ≠ "" ∧ "123e4567-e89b-12d3-a456-426614174000" ≠ "")
  ∧ (get_or_create_session Option.none "123e4567-e89b-12d3-a456-426614174000"
        = "123e4567-e89b-12d3-a456-426614174000"
    ∧ get_or_create_session (Option.some "") "123e4567-e89b-12d3-a456-426614174000"
        = "123e4567-e89b-12d3-a456-426614174000"
    ∧ get_or_create_session (Option.some "abc") "123e4567-e89b-12d3-a456-426614174000" = "abc"
    ∧ (∀ cand : Option String,
        get_or_create_session cand "123e4567-e89b-12d3-a456-426614174000" ≠ "")) :=
  ⟨⟨by decide, by decide⟩,
   session_resolver_spec "abc" "123e4567-e89b-12d3-a456-426614174000" (by decide) (by decide)⟩

/-- Claim C6: History Store failure asymmetry.  `add_to_history` absorbs a
persistence failure as a no-op (its total return type already rules out
raising), `get_conversation_history` returns `[]` both on failure and on an
unknown session, and `clear_conversation` propagates the failure to its
caller. -/
theorem history_failure_asymmetry (s : Store) (sid u a : String)
    (h : sessionRows sid s = []) :
    add_to_history .fail s sid u a = s
  ∧ get_conversation_history .fail s sid = []
  ∧ get_conversation_history .ok s sid = []
  ∧ clear_conversation .fail s sid = .error "db failure"
  ∧ clear_conversation .ok s sid = .ok (s.filter (fun r => !(r.session_id == sid))) := by
  refine ⟨rfl, rfl, ?_, rfl, rfl⟩
  simp [get_conversation_history, rawRead, h]

/-- Witness for C6: a store holding only another session. -/
theorem history_failure_asymmetry_witness :
    sessionRows "s1" [⟨"other", Role.user, "x"⟩] = []
  ∧ (add_to_history .fail [⟨"other", Role.user, "x"⟩] "s1" "u" "a" = [⟨"other", Role.user, "x"⟩]
    ∧ get_conversation_history .fail [⟨"other", Role.user, "x"⟩] "s1" = []
    ∧ get_conversation_history .ok [⟨"other", Role.user, "x"⟩] "s1" = []
    ∧ clear_conversation .fail [⟨"other", Role.user, "x"⟩] "s1" = .error "db failure"
    ∧ clear_conversation .ok [⟨"other", Role.user, "x"⟩] "s1"
        = .ok (([⟨"other", Role.user, "x"⟩] : Store).filter
            (fun r => !(r.session_id == "s1")))) :=
  ⟨by decide, history_failure_asymmetry [⟨"other", Role.user, "x"⟩] "s1" "u" "a" (by decide)⟩

/-- Claim C3 (code bug): validation of missing/empty required input.
`POST /text-chat` with empty text and `POST /clear-conversation` with a
missing or empty `session_id` return 400 before any provider or store call,
as the claim says; but `POST /tts` with empty text, although it raises its
validation error before any provider call, surfaces it as HTTP 500 with
detail `"400: Text is required"`, because `text_to_speech` lacks the
`except HTTPException: raise` guard every other endpoint has and its blanket
`except Exception` re-wraps the 400. -/
theorem validation_error_paths :
    (text_chat true true true "" Option.none "u-1" "corpus" .ok [] (.ok "r") (.ok "b")).1
        = .error ⟨400, "Text is required"⟩
  ∧ (text_chat true true true "" Option.none "u-1" "corpus" .ok [] (.ok "r") (.ok "b")).2
        = ([], ⟨false, false, false⟩)
  ∧ (text_chat true true true "   " Option.none "u-1" "corpus" .ok [] (.ok "r") (.ok "b")).1
        = .error ⟨400, "Text is required"⟩
  ∧ clear_conversation_endpoint .ok Option.none []
        = (.error ⟨400, "session_id es requerido"⟩, [])
  ∧ clear_conversation_endpoint .ok (Option.some "") []
        = (.error ⟨400, "session_id es requerido"⟩, [])
  ∧ text_to_speech true "" (.ok "AUDIO") = (.error ⟨500, "400: Text is required"⟩, false) := by
  decide

/-- Claim C1 (code bug): in `POST /voice-chat`, `server.py:496` calls
`get_conversation_history(session_id)` without `await`, so the history
passed to `get_ai_response` is an un-awaited coroutine object;
`messages.extend(...)` then raises `TypeError`, which `get_ai_response`
converts to HTTP 500.  Hence even with every provider succeeding and a
non-empty transcript, the flow returns a 500, never calls the language
model, never appends to the history and never returns the documented
response body. -/
theorem voice_flow_missing_await :
    voice_chat true true true (Option.some "s1") "u-1" "corpus" 50000 (.ok "Hola") .ok
        [⟨"s1", Role.user, "q0"⟩, ⟨"s1", Role.assistant, "a0"⟩]
        (.ok "Respuesta legal") (.ok "AUDIOB64")
      = (.error ⟨500, "Error generating AI response: \x27coroutine\x27 object is not iterable"⟩,
         [⟨"s1", Role.user, "q0"⟩, ⟨"s1", Role.assistant, "a0"⟩],
         ⟨true, false, false⟩) := by
  decide

/-- Claim C2, counterexample: `POST /voice-chat` performs no minimum-length
check at all — a 200-byte audio buffer still reaches the transcription
provider (`stt` flag true), and the resulting provider error surfaces as a
generic 500, not as the AudioTooShort client error. -/
theorem short_audio_voice_flow_counterexample :
    (voice_chat true true true Option.none "u-1" "corpus" 200 (.error "audio_too_short") .ok []
        (.ok "r") (.ok "b")).2.2.stt = true
  ∧ (voice_chat true true true Option.none "u-1" "corpus" 200 (.error "audio_too_short") .ok []
        (.ok "r") (.ok "b")).1
      = .error ⟨500, "Error procesando consulta de voz: audio_too_short"⟩ := by
  decide

/-- Claim C2 as amended: in the agent flow (`POST /voice-agent`) audio under
1000 bytes is rejected with the AudioTooShort 400 before the transcription
provider is called (the call log is all-false and the store is untouched). -/
theorem short_audio_agent_rejection (agentId : String) (sessionIn : Option String)
    (fresh corpus : String) (audioLen : Nat) (stt : Except String String)
    (lookup : AgentLookup) (db : DbOutcome) (store : Store)
    (llm tts : Except String String) (h : audioLen < 1000) :
    voice_agent true true true agentId sessionIn fresh corpus audioLen stt lookup db store
        llm tts
      = (.error ⟨400,
           "El audio es demasiado corto. Por favor, graba al menos 1 segundo de audio."⟩,
         store, ⟨false, false, false⟩) := by
  simp [voice_agent, h]

/-- Witness for the amended C2 at a 200-byte audio buffer. -/
theorem short_audio_agent_rejection_witness :
    200 < 1000
  ∧ voice_agent true true true "agent-1" Option.none "u-1" "corpus" 200 (Except.error "x")
        AgentLookup.fail DbOutcome.ok [] (Except.ok "r") (Except.ok "b")
      = (.error ⟨400,
           "El audio es demasiado corto. Por favor, graba al menos 1 segundo de audio."⟩,
         [], ⟨false, false, false⟩) :=
  ⟨by decide,
   short_audio_agent_rejection "agent-1" Option.none "u-1" "corpus" 200 (Except.error "x")
     AgentLookup.fail DbOutcome.ok [] (Except.ok "r") (Except.ok "b") (by decide)⟩

end Prados
